import Mathlib

/-!
Shallow embedding of the judge0-rs HTTP client (src/client.rs, src/config.rs,
src/error.rs, src/model.rs) and proofs about the claims of its specification.

Modelling conventions:
* JSON documents are modelled by the inductive `Json`; JSON numbers are
  modelled by `Rat` (the claims never exercise floating-point arithmetic —
  f64 values are only carried around, never computed with).
* `http::HeaderMap` is modelled as an association list of (name, value)
  strings whose `insert` replaces an existing entry with the same key, as the
  http crate does; header names are stored lowercased, as
  `HeaderName::from_str` canonicalises them.
* The network transport (`reqwest`) is modelled by an explicit function
  argument `send : RequestData → Except String Response`; each request
  function additionally returns the list of requests actually handed to the
  transport, so "no network I/O happened" is expressible as that list being
  empty.  A `Response` carries the HTTP status code and the decoded JSON
  body; decoding of the body into the operation's result type is a function
  `Json → Except String α` mirroring `Response::json::<T>()`.
-/

namespace Judge0

/-- JSON values (`serde_json::Value`). Numbers are modelled as rationals. -/
inductive Json where
  | null
  | bool (b : Bool)
  | num (q : Rat)
  | str (s : String)
  | arr (elems : List Json)
  | obj (fields : List (String × Json))

/-- Field lookup in a JSON object; `none` on absent field or non-object. -/
def Json.lookup : Json → String → Option Json
  | .obj fields, key => (fields.find? (fun p => p.1 = key)).map (·.2)
  | _, _ => none

/-- `src/error.rs`: the error enum. The `reqwest::Error` and
`serde_json::Error` payloads are opaque to this client; we model them as the
human-readable cause string. -/
inductive Error where
  | Request (cause : String)
  | Serde (cause : String)
  | HeaderName (name : String)
  | HeaderValue (value : String)
deriving DecidableEq, Repr

/-- The subset of `http::Method` the client uses. -/
inductive Method where
  | GET
  | POST
  | DELETE
deriving DecidableEq, Repr

/-- `src/config.rs`: client configuration. -/
structure Config where
  authentication_header_name : String
  authentication_token : Option String
  authorization_header_name : String
  authorization_token : Option String
  base64_encoded : Bool
  wait : Bool
deriving DecidableEq, Repr

/-- `impl Default for Config` (src/config.rs lines 34–45). -/
def Config.default : Config where
  authentication_header_name := "X-Auth-Token"
  authentication_token := none
  authorization_header_name := "X-Auth-User"
  authorization_token := none
  base64_encoded := false
  wait := false

/-- `src/model.rs`: `Status`. -/
structure Status where
  id : Nat
  description : String
deriving DecidableEq, Repr

/-- `src/model.rs` lines 38–153: `Submission`. Fields appear in source
declaration order.  `f64` fields are modelled as `Rat`, `DateTime<Utc>`
fields as their RFC 3339 string representation. -/
structure Submission where
  source_code : String
  language_id : Nat
  compiler_options : Option String
  command_line_arguments : Option String
  stdin : Option String
  expected_output : Option String
  cpu_time_limit : Option Rat
  cpu_extra_time : Option Rat
  wall_time_limit : Option Rat
  memory_limit : Option Rat
  stack_limit : Option Nat
  max_processes_and_or_threads : Option Nat
  enable_per_process_and_thread_time_limit : Option Bool
  enable_per_process_and_thread_memory_limit : Option Bool
  max_file_size : Option Nat
  redirect_stderr_to_stdout : Option Bool
  enable_network : Option Bool
  number_of_runs : Option Nat
  additional_files : Option String
  callback_url : Option String
  stdout : Option String
  stderr : Option String
  compile_output : Option String
  message : Option String
  exit_code : Option Int
  exit_signal : Option Int
  status : Option Status
  created_at : Option String
  finished_at : Option String
  token : Option String
  time : Option Rat
  wall_time : Option Rat
  memory : Option Rat

/-- `#[derive(Default)]` for `Submission`: empty string, zero, all `None`. -/
def Submission.default : Submission where
  source_code := ""
  language_id := 0
  compiler_options := none
  command_line_arguments := none
  stdin := none
  expected_output := none
  cpu_time_limit := none
  cpu_extra_time := none
  wall_time_limit := none
  memory_limit := none
  stack_limit := none
  max_processes_and_or_threads := none
  enable_per_process_and_thread_time_limit := none
  enable_per_process_and_thread_memory_limit := none
  max_file_size := none
  redirect_stderr_to_stdout := none
  enable_network := none
  number_of_runs := none
  additional_files := none
  callback_url := none
  stdout := none
  stderr := none
  compile_output := none
  message := none
  exit_code := none
  exit_signal := none
  status := none
  created_at := none
  finished_at := none
  token := none
  time := none
  wall_time := none
  memory := none

/-- serde serialization of an `Option<T>` field: `None` becomes `null`
(there is no `skip_serializing_if` attribute anywhere in src/model.rs). -/
def optJson (f : α → Json) : Option α → Json
  | none => Json.null
  | some a => f a

/-- serde serialization of `Status` (derive, field declaration order). -/
def Status.toJson (s : Status) : Json :=
  Json.obj [("id", Json.num s.id), ("description", Json.str s.description)]

/-- serde serialization of `Submission` (derive: every field is emitted, in
declaration order; unset `Option` fields are emitted as `null`). -/
def Submission.toJson (s : Submission) : Json :=
  Json.obj
    [ ("source_code", Json.str s.source_code)
    , ("language_id", Json.num s.language_id)
    , ("compiler_options", optJson Json.str s.compiler_options)
    , ("command_line_arguments", optJson Json.str s.command_line_arguments)
    , ("stdin", optJson Json.str s.stdin)
    , ("expected_output", optJson Json.str s.expected_output)
    , ("cpu_time_limit", optJson Json.num s.cpu_time_limit)
    , ("cpu_extra_time", optJson Json.num s.cpu_extra_time)
    , ("wall_time_limit", optJson Json.num s.wall_time_limit)
    , ("memory_limit", optJson Json.num s.memory_limit)
    , ("stack_limit", optJson (fun n => Json.num n) s.stack_limit)
    , ("max_processes_and_or_threads",
        optJson (fun n => Json.num n) s.max_processes_and_or_threads)
    , ("enable_per_process_and_thread_time_limit",
        optJson Json.bool s.enable_per_process_and_thread_time_limit)
    , ("enable_per_process_and_thread_memory_limit",
        optJson Json.bool s.enable_per_process_and_thread_memory_limit)
    , ("max_file_size", optJson (fun n => Json.num n) s.max_file_size)
    , ("redirect_stderr_to_stdout", optJson Json.bool s.redirect_stderr_to_stdout)
    , ("enable_network", optJson Json.bool s.enable_network)
    , ("number_of_runs", optJson (fun n => Json.num n) s.number_of_runs)
    , ("additional_files", optJson Json.str s.additional_files)
    , ("callback_url", optJson Json.str s.callback_url)
    , ("stdout", optJson Json.str s.stdout)
    , ("stderr", optJson Json.str s.stderr)
    , ("compile_output", optJson Json.str s.compile_output)
    , ("message", optJson Json.str s.message)
    , ("exit_code", optJson (fun n => Json.num n) s.exit_code)
    , ("exit_signal", optJson (fun n => Json.num n) s.exit_signal)
    , ("status", optJson Status.toJson s.status)
    , ("created_at", optJson Json.str s.created_at)
    , ("finished_at", optJson Json.str s.finished_at)
    , ("token", optJson Json.str s.token)
    , ("time", optJson Json.num s.time)
    , ("wall_time", optJson Json.num s.wall_time)
    , ("memory", optJson Json.num s.memory)
    ]

/-- serde deserialization of a JSON value as a string. -/
def Json.asStr : Json → Except String String
  | .str s => Except.ok s
  | _ => Except.error "invalid type: expected a string"

/-- serde deserialization of a JSON value as a `usize`: a non-negative
integer JSON number. -/
def Json.asNat : Json → Except String Nat
  | .num q =>
      if q.den = 1 ∧ 0 ≤ q.num then Except.ok q.num.toNat
      else Except.error "invalid type: expected an unsigned integer"
  | _ => Except.error "invalid type: expected an unsigned integer"

/-- serde deserialization of a JSON value as an `i64`: an integer number. -/
def Json.asInt : Json → Except String Int
  | .num q =>
      if q.den = 1 then Except.ok q.num
      else Except.error "invalid type: expected an integer"
  | _ => Except.error "invalid type: expected an integer"

/-- serde deserialization of a JSON value as an `f64`: any number. -/
def Json.asRat : Json → Except String Rat
  | .num q => Except.ok q
  | _ => Except.error "invalid type: expected a number"

/-- serde deserialization of a JSON value as a `bool`. -/
def Json.asBool : Json → Except String Bool
  | .bool b => Except.ok b
  | _ => Except.error "invalid type: expected a boolean"

/-- serde: a required (non-`Option`) field — absent means
"missing field" error. -/
def reqField (j : Json) (key : String) (conv : Json → Except String α) :
    Except String α :=
  match j.lookup key with
  | none => Except.error ("missing field " ++ key)
  | some v => conv v

/-- serde: an `Option<T>` field — absent or `null` means `None`. -/
def optField (j : Json) (key : String) (conv : Json → Except String α) :
    Except String (Option α) :=
  match j.lookup key with
  | none => Except.ok none
  | some Json.null => Except.ok none
  | some v => (conv v).map some

/-- serde deserialization of `Status` (derive). -/
def Status.fromJson (j : Json) : Except String Status := do
  let id ← reqField j "id" Json.asNat
  let description ← reqField j "description" Json.asStr
  Except.ok { id := id, description := description }

/-- serde deserialization of `Submission` (derive): `source_code` and
`language_id` are mandatory (no `#[serde(default)]`); all `Option` fields
default to `None` when absent; unknown fields are ignored. -/
def Submission.fromJson (j : Json) : Except String Submission := do
  let source_code ← reqField j "source_code" Json.asStr
  let language_id ← reqField j "language_id" Json.asNat
  let compiler_options ← optField j "compiler_options" Json.asStr
  let command_line_arguments ← optField j "command_line_arguments" Json.asStr
  let stdin ← optField j "stdin" Json.asStr
  let expected_output ← optField j "expected_output" Json.asStr
  let cpu_time_limit ← optField j "cpu_time_limit" Json.asRat
  let cpu_extra_time ← optField j "cpu_extra_time" Json.asRat
  let wall_time_limit ← optField j "wall_time_limit" Json.asRat
  let memory_limit ← optField j "memory_limit" Json.asRat
  let stack_limit ← optField j "stack_limit" Json.asNat
  let max_processes_and_or_threads ←
    optField j "max_processes_and_or_threads" Json.asNat
  let enable_per_process_and_thread_time_limit ←
    optField j "enable_per_process_and_thread_time_limit" Json.asBool
  let enable_per_process_and_thread_memory_limit ←
    optField j "enable_per_process_and_thread_memory_limit" Json.asBool
  let max_file_size ← optField j "max_file_size" Json.asNat
  let redirect_stderr_to_stdout ←
    optField j "redirect_stderr_to_stdout" Json.asBool
  let enable_network ← optField j "enable_network" Json.asBool
  let number_of_runs ← optField j "number_of_runs" Json.asNat
  let additional_files ← optField j "additional_files" Json.asStr
  let callback_url ← optField j "callback_url" Json.asStr
  let stdout ← optField j "stdout" Json.asStr
  let stderr ← optField j "stderr" Json.asStr
  let compile_output ← optField j "compile_output" Json.asStr
  let message ← optField j "message" Json.asStr
  let exit_code ← optField j "exit_code" Json.asInt
  let exit_signal ← optField j "exit_signal" Json.asInt
  let status ← optField j "status" Status.fromJson
  let created_at ← optField j "created_at" Json.asStr
  let finished_at ← optField j "finished_at" Json.asStr
  let token ← optField j "token" Json.asStr
  let time ← optField j "time" Json.asRat
  let wall_time ← optField j "wall_time" Json.asRat
  let memory ← optField j "memory" Json.asRat
  Except.ok
    { source_code := source_code, language_id := language_id
    , compiler_options := compiler_options
    , command_line_arguments := command_line_arguments
    , stdin := stdin, expected_output := expected_output
    , cpu_time_limit := cpu_time_limit, cpu_extra_time := cpu_extra_time
    , wall_time_limit := wall_time_limit, memory_limit := memory_limit
    , stack_limit := stack_limit
    , max_processes_and_or_threads := max_processes_and_or_threads
    , enable_per_process_and_thread_time_limit :=
        enable_per_process_and_thread_time_limit
    , enable_per_process_and_thread_memory_limit :=
        enable_per_process_and_thread_memory_limit
    , max_file_size := max_file_size
    , redirect_stderr_to_stdout := redirect_stderr_to_stdout
    , enable_network := enable_network, number_of_runs := number_of_runs
    , additional_files := additional_files, callback_url := callback_url
    , stdout := stdout, stderr := stderr, compile_output := compile_output
    , message := message, exit_code := exit_code, exit_signal := exit_signal
    , status := status, created_at := created_at, finished_at := finished_at
    , token := token, time := time, wall_time := wall_time, memory := memory }

/-- Characters `http::HeaderName::from_str` accepts: the RFC 7230 token
characters (letters, digits, and a fixed punctuation set); uppercase letters
are accepted and canonicalised to lowercase. -/
def validHeaderNameChar (c : Char) : Bool :=
  c.isLower || c.isUpper || c.isDigit ||
  c == Char.ofNat 33 || c == Char.ofNat 35 || c == Char.ofNat 36 ||
  c == Char.ofNat 37 || c == Char.ofNat 38 || c == Char.ofNat 39 ||
  c == Char.ofNat 42 || c == Char.ofNat 43 || c == Char.ofNat 45 ||
  c == Char.ofNat 46 || c == Char.ofNat 94 || c == Char.ofNat 95 ||
  c == Char.ofNat 96 || c == Char.ofNat 124 || c == Char.ofNat 126

/-- `http::HeaderName::from_str` succeeds iff the string is non-empty and
every character is a token character. -/
def validHeaderName (s : String) : Bool :=
  !s.data.isEmpty && s.data.all validHeaderNameChar

/-- ASCII lowercasing of a string, as `HeaderName` canonicalisation does. -/
def lowerAscii (s : String) : String :=
  String.mk (List.map Char.toLower s.data)

/-- Characters `http::HeaderValue::from_str` accepts: horizontal tab, or any
byte that is at least 32 and not DEL (127); bytes above 127 (characters
outside ASCII) pass the per-byte check. -/
def validHeaderValueChar (c : Char) : Bool :=
  c.toNat == 9 || (32 ≤ c.toNat && c.toNat ≠ 127)

/-- `http::HeaderValue::from_str` succeeds iff every character is a legal
header-value character. -/
def validHeaderValue (s : String) : Bool :=
  s.data.all validHeaderValueChar

/-- `http::HeaderMap` modelled as an association list keyed by the
canonical (lowercased) header name. -/
abbrev HeaderMap := List (String × String)

/-- `HeaderMap::insert`: replace the entry with the same name if present,
append otherwise. -/
def HeaderMap.insert (hs : HeaderMap) (k v : String) : HeaderMap :=
  if (List.any hs (fun p => p.1 = k)) then
    List.map (fun p => if p.1 = k then (k, v) else p) hs
  else
    hs ++ [(k, v)]

/-- Case-insensitive header lookup, as HTTP header-name matching is
case-insensitive (the map stores canonical lowercase names). -/
def findHeader (hs : HeaderMap) (name : String) : Option String :=
  (List.find? (fun p => p.1 = lowerAscii name) hs).map (·.2)

/-- The `header_name` closure of `Client::headers` (src/client.rs 348–351):
`HeaderName::from_str`, mapping failure to `Error::HeaderName(name)`; a
successful parse yields the canonical lowercase name. -/
def header_name (name : String) : Except Error String :=
  if validHeaderName name then Except.ok (lowerAscii name)
  else Except.error (Error.HeaderName name)

/-- The `header_value` closure of `Client::headers` (src/client.rs 353–356):
`HeaderValue::from_str`; note the source maps failure to
`Error::HeaderName(value)` — not to `Error::HeaderValue`. -/
def header_value (value : String) : Except Error String :=
  if validHeaderValue value then Except.ok value
  else Except.error (Error.HeaderName value)

/-- One `if let Some(token) = …` block of `Client::headers`
(src/client.rs 360–372): when the token is present, parse the header name,
then the header value (that is the source's evaluation order), and insert. -/
def addAuthHeader (hs : HeaderMap) (name : String) (token : Option String) :
    Except Error HeaderMap :=
  match token with
  | none => Except.ok hs
  | some t =>
      match header_name name with
      | Except.error e => Except.error e
      | Except.ok n =>
          match header_value t with
          | Except.error e => Except.error e
          | Except.ok v => Except.ok (HeaderMap.insert hs n v)

/-- `src/client.rs` lines 4–8: the client. The `reqwest::Client` handle is
stateless and carries no data relevant to the claims, so it is dropped. -/
structure Client where
  base_url : String
  config : Config

/-- `Client::new` (src/client.rs 18–24). -/
def Client.new (base_url : String) : Client :=
  { base_url := base_url, config := Config.default }

/-- `Client::configure` (src/client.rs 33–35): replace the whole config,
keep the rest of the client. -/
def Client.configure (c : Client) (config : Config) : Client :=
  { c with config := config }

/-- `Client::headers` (src/client.rs 345–375): content-type first, then the
authentication header if its token is set, then the authorization header if
its token is set. -/
def Client.headers (c : Client) : Except Error HeaderMap :=
  match header_value "application/json" with
  | Except.error e => Except.error e
  | Except.ok ctv =>
      match addAuthHeader (HeaderMap.insert [] "content-type" ctv)
          c.config.authentication_header_name
          c.config.authentication_token with
      | Except.error e => Except.error e
      | Except.ok hs =>
          addAuthHeader hs c.config.authorization_header_name
            c.config.authorization_token

/-- A request as handed to the transport: method, full URL
(`base_url ++ endpoint`), headers, and the serialized body if any. -/
structure RequestData where
  method : Method
  url : String
  headers : HeaderMap
  body : Option Json

/-- An HTTP response: status code and JSON body. -/
structure Response where
  status : Nat
  body : Json

/-- `Client::request` (src/client.rs 378–393): build headers (failing
before any I/O), send, decode the body — the status code is never
inspected.  The second component is the list of requests handed to the
transport. -/
def Client.request (c : Client) (endpoint : String) (method : Method)
    (send : RequestData → Except String Response)
    (decode : Json → Except String T) :
    Except Error T × List RequestData :=
  match c.headers with
  | Except.error e => (Except.error e, [])
  | Except.ok hs =>
      let req : RequestData :=
        { method := method, url := c.base_url ++ endpoint
        , headers := hs, body := none }
      match send req with
      | Except.error cause => (Except.error (Error.Request cause), [req])
      | Except.ok resp =>
          match decode resp.body with
          | Except.error cause => (Except.error (Error.Serde cause), [req])
          | Except.ok v => (Except.ok v, [req])

/-- `Client::request_with_body` (src/client.rs 396–413): like
`Client.request` but with a serialized JSON body (`serde_json::to_string`
cannot fail on the body types this client uses, so serialization is a total
function `B → Json`). -/
def Client.request_with_body (c : Client) (endpoint : String)
    (method : Method) (ser : B → Json) (body : B)
    (send : RequestData → Except String Response)
    (decode : Json → Except String T) :
    Except Error T × List RequestData :=
  match c.headers with
  | Except.error e => (Except.error e, [])
  | Except.ok hs =>
      let req : RequestData :=
        { method := method, url := c.base_url ++ endpoint
        , headers := hs, body := some (ser body) }
      match send req with
      | Except.error cause => (Except.error (Error.Request cause), [req])
      | Except.ok resp =>
          match decode resp.body with
          | Except.error cause => (Except.error (Error.Serde cause), [req])
          | Except.ok v => (Except.ok v, [req])

/-- Rust's `Display` for `bool`, as used by `format!("{}", b)`. -/
def boolStr (b : Bool) : String :=
  if b then "true" else "false"

/-- The endpoint of `Client::create_submission` (src/client.rs 174–177):
`format!("/submissions?base64_encoded={}&wait={}", base64_encoded, wait)`. -/
def createSubmissionEndpoint (cfg : Config) : String :=
  "/submissions?base64_encoded=" ++ boolStr cfg.base64_encoded ++
  "&wait=" ++ boolStr cfg.wait

/-- The endpoint of `Client::get_submission` (src/client.rs 208–213): the
format string is
`"/submissions/{token}?base64_encoded={}&wait={}&fields={}"` and the
positional arguments are, in order, `fields.unwrap_or("*")`,
`base64_encoded`, `wait` — so the fields value fills the `base64_encoded`
placeholder, and so on. -/
def getSubmissionEndpoint (cfg : Config) (token : String)
    (fields : Option String) : String :=
  "/submissions/" ++ token ++
  "?base64_encoded=" ++ fields.getD "*" ++
  "&wait=" ++ boolStr cfg.base64_encoded ++
  "&fields=" ++ boolStr cfg.wait

/-- The endpoint of `Client::delete_submission` (src/client.rs 243). -/
def deleteSubmissionEndpoint (token : String) (fields : Option String) :
    String :=
  "/submissions/" ++ token ++ "?fields=" ++ fields.getD "*"

/-- The endpoint of `Client::batch_submit` (src/client.rs 282–285). -/
def batchSubmitEndpoint (cfg : Config) : String :=
  "/submissions/batch?base64_encoded=" ++ boolStr cfg.base64_encoded

/-- The endpoint of `Client::get_batch_submission` (src/client.rs 333–338):
note the path segment is the singular `/submission/batch`. -/
def getBatchSubmissionEndpoint (cfg : Config) (tokens : List String)
    (fields : Option String) : String :=
  "/submission/batch?tokens=" ++ String.intercalate "," tokens ++
  "&base64_encoded=" ++ boolStr cfg.base64_encoded ++
  "&fields=" ++ fields.getD "*"

/-- Decoding a response into `serde_json::Value`: the identity. -/
def decodeValue : Json → Except String Json :=
  fun j => Except.ok j

/-- Decoding a response into `Vec<T>`. -/
def decodeList (decode : Json → Except String α) : Json → Except String (List α)
  | Json.arr elems => elems.mapM decode
  | _ => Except.error "invalid type: expected a sequence"

/-- `Client::create_submission` (src/client.rs 168–182). -/
def Client.create_submission (c : Client) (submission : Submission)
    (send : RequestData → Except String Response) :
    Except Error Json × List RequestData :=
  c.request_with_body (createSubmissionEndpoint c.config) Method.POST
    Submission.toJson submission send decodeValue

/-- `Client::get_submission` (src/client.rs 201–217). -/
def Client.get_submission (c : Client) (token : String)
    (fields : Option String)
    (send : RequestData → Except String Response) :
    Except Error Submission × List RequestData :=
  c.request (getSubmissionEndpoint c.config token fields) Method.GET send
    Submission.fromJson

/-- `Client::delete_submission` (src/client.rs 236–247). -/
def Client.delete_submission (c : Client) (token : String)
    (fields : Option String)
    (send : RequestData → Except String Response) :
    Except Error Submission × List RequestData :=
  c.request (deleteSubmissionEndpoint token fields) Method.DELETE send
    Submission.fromJson

/-- `Client::batch_submit` (src/client.rs 276–290). -/
def Client.batch_submit (c : Client) (submissions : List Submission)
    (send : RequestData → Except String Response) :
    Except Error (List Json) × List RequestData :=
  c.request_with_body (batchSubmitEndpoint c.config) Method.POST
    (fun subs => Json.arr (List.map Submission.toJson subs)) submissions
    send (decodeList decodeValue)

/-- `Client::get_batch_submission` (src/client.rs 326–342). -/
def Client.get_batch_submission (c : Client) (tokens : List String)
    (fields : Option String)
    (send : RequestData → Except String Response) :
    Except Error (List Submission) × List RequestData :=
  c.request (getBatchSubmissionEndpoint c.config tokens fields) Method.GET
    send (decodeList Submission.fromJson)

/-- A minimal submission: only `source_code` and `language_id` set, every
optional field unset — the payload of the round-trip scenario. -/
def subMin : Submission :=
  { Submission.default with source_code := "print(1)", language_id := 1 }

/-- A transport that refuses every request (its result only matters to
claims about what was *sent*). -/
def sendNone : RequestData → Except String Response :=
  fun _ => Except.error "no transport"

/-- A client whose authentication header name is malformed (contains a
space) while its authentication token is present. -/
def cBadAuthName : Client :=
  { base_url := "u"
  , config := { Config.default with
                  authentication_header_name := "bad name"
                , authentication_token := some "t" } }

/-- A client whose authorization header name is malformed (contains a
space) while its authorization token is present and its authentication
token is absent. -/
def cBadAuthzName : Client :=
  { base_url := "u"
  , config := { Config.default with
                  authorization_header_name := "bad user"
                , authorization_token := some "t" } }

/-- Header lookup by canonical (already lowercased) key. -/
def lookupKey (hs : HeaderMap) (k : String) : Option String :=
  (List.find? (fun p => p.1 = k) hs).map (·.2)

theorem findHeader_eq_lookupKey (hs : HeaderMap) (name : String) :
    findHeader hs name = lookupKey hs (lowerAscii name) := rfl

theorem hv_appjson :
    header_value "application/json" = Except.ok "application/json" := rfl

theorem header_name_ok {n m : String} (h : header_name n = Except.ok m) :
    m = lowerAscii n := by
  unfold header_name at h
  by_cases hv : validHeaderName n
  · rw [if_pos hv] at h
    exact (Except.ok.injEq _ _ ▸ h).symm
  · rw [if_neg hv] at h
    exact absurd h (by simp)

theorem header_value_ok {v w : String} (h : header_value v = Except.ok w) :
    w = v := by
  unfold header_value at h
  by_cases hv : validHeaderValue v
  · rw [if_pos hv] at h
    exact (Except.ok.injEq _ _ ▸ h).symm
  · rw [if_neg hv] at h
    exact absurd h (by simp)

theorem addAuthHeader_none (hs : HeaderMap) (name : String) :
    addAuthHeader hs name none = Except.ok hs := rfl

theorem addAuthHeader_some {hs hs' : HeaderMap} {name t : String}
    (h : addAuthHeader hs name (some t) = Except.ok hs') :
    hs' = HeaderMap.insert hs (lowerAscii name) t := by
  cases hn : header_name name with
  | error e =>
      simp only [addAuthHeader, hn] at h
      exact Except.noConfusion h
  | ok n =>
      cases hv : header_value t with
      | error e =>
          simp only [addAuthHeader, hn, hv] at h
          exact Except.noConfusion h
      | ok w =>
          simp only [addAuthHeader, hn, hv, Except.ok.injEq] at h
          have hn' := header_name_ok hn
          have hv' := header_value_ok hv
          subst hn' hv'
          exact h.symm

theorem addAuthHeader_bad_name (hs : HeaderMap) {name : String} (t : String)
    (hname : validHeaderName name = false) :
    addAuthHeader hs name (some t) = Except.error (Error.HeaderName name) := by
  unfold addAuthHeader header_name
  rw [if_neg (by simp [hname])]

theorem find?_rewrite_ne (l : List (String × String)) (k k' v : String)
    (hne : k' ≠ k) :
    List.find? (fun p => p.1 = k')
        (List.map (fun p => if p.1 = k then (k, v) else p) l) =
      List.find? (fun p => p.1 = k') l := by
  induction l with
  | nil => rfl
  | cons hd tl ih =>
      by_cases hhd : hd.1 = k
      · have h1 : ¬ ((k, v).1 = k') := fun hh => hne hh.symm
        have h2 : ¬ (hd.1 = k') := fun hh => hne (hh.symm.trans hhd)
        simp only [List.map_cons, if_pos hhd]
        rw [List.find?_cons_of_neg _ (by simpa using h1)]
        rw [List.find?_cons_of_neg _ (by simpa using h2), ih]
      · simp only [List.map_cons, if_neg hhd]
        by_cases hk' : hd.1 = k'
        · rw [List.find?_cons_of_pos _ (by simpa using hk')]
          rw [List.find?_cons_of_pos _ (by simpa using hk')]
        · rw [List.find?_cons_of_neg _ (by simpa using hk')]
          rw [List.find?_cons_of_neg _ (by simpa using hk'), ih]

theorem find?_rewrite_self (l : List (String × String)) (k v : String)
    (hany : List.any l (fun p => p.1 = k) = true) :
    List.find? (fun p => p.1 = k)
        (List.map (fun p => if p.1 = k then (k, v) else p) l) =
      some (k, v) := by
  induction l with
  | nil => simp at hany
  | cons hd tl ih =>
      by_cases hhd : hd.1 = k
      · simp only [List.map_cons, if_pos hhd]
        rw [List.find?_cons_of_pos _ (by simp)]
      · have htl : List.any tl (fun p => p.1 = k) = true := by
          rcases List.any_eq_true.mp hany with ⟨p, hp, hpk⟩
          rcases List.mem_cons.mp hp with rfl | hp2
          · exact absurd (of_decide_eq_true hpk) hhd
          · exact List.any_eq_true.mpr ⟨p, hp2, hpk⟩
        simp only [List.map_cons, if_neg hhd]
        rw [List.find?_cons_of_neg _ (by simpa using hhd), ih htl]

theorem lookupKey_insert_self (hs : HeaderMap) (k v : String) :
    lookupKey (HeaderMap.insert hs k v) k = some v := by
  unfold HeaderMap.insert
  by_cases hany : List.any hs (fun p => p.1 = k) = true
  · rw [if_pos hany, lookupKey, find?_rewrite_self hs k v hany]
    rfl
  · rw [if_neg hany]
    have hnone : List.find? (fun p => p.1 = k) hs = none := by
      rw [List.find?_eq_none]
      intro p hp hpk
      exact hany (List.any_eq_true.mpr ⟨p, hp, hpk⟩)
    rw [lookupKey, List.find?_append, hnone]
    rw [List.find?_cons_of_pos _ (by simp)]
    rfl

theorem lookupKey_insert_ne (hs : HeaderMap) {k k' : String} (v : String)
    (hne : k' ≠ k) :
    lookupKey (HeaderMap.insert hs k v) k' = lookupKey hs k' := by
  unfold HeaderMap.insert
  by_cases hany : List.any hs (fun p => p.1 = k) = true
  · rw [if_pos hany, lookupKey, find?_rewrite_ne hs k k' v hne]
    rfl
  · rw [if_neg hany]
    have h1 : ¬ ((k, v).1 = k') := fun hh => hne hh.symm
    rw [lookupKey, List.find?_append]
    rw [List.find?_cons_of_neg _ (by simpa using h1)]
    simp [lookupKey, List.find?]

theorem headers_ok_split {c : Client} {hs : HeaderMap}
    (h : c.headers = Except.ok hs) :
    ∃ hs₁,
      addAuthHeader [("content-type", "application/json")]
          c.config.authentication_header_name
          c.config.authentication_token = Except.ok hs₁ ∧
      addAuthHeader hs₁ c.config.authorization_header_name
          c.config.authorization_token = Except.ok hs := by
  unfold Client.headers at h
  rw [hv_appjson] at h
  dsimp only at h
  have hbase : HeaderMap.insert [] "content-type" "application/json" =
      [("content-type", "application/json")] := rfl
  rw [hbase] at h
  cases haa : addAuthHeader [("content-type", "application/json")]
      c.config.authentication_header_name
      c.config.authentication_token with
  | error e =>
      rw [haa] at h
      exact Except.noConfusion h
  | ok hs₁ =>
      rw [haa] at h
      exact ⟨hs₁, rfl, h⟩

theorem request_trace (c : Client) (endpoint : String) (method : Method)
    {T : Type} (send : RequestData → Except String Response)
    (decode : Json → Except String T) (hs : HeaderMap)
    (h : c.headers = Except.ok hs) :
    (c.request endpoint method send decode).2 =
      [{ method := method, url := c.base_url ++ endpoint
       , headers := hs, body := none }] := by
  unfold Client.request
  rw [h]
  dsimp only
  cases send { method := method, url := c.base_url ++ endpoint
             , headers := hs, body := none } with
  | error e => rfl
  | ok resp =>
      dsimp only
      cases decode resp.body with
      | error e => rfl
      | ok v => rfl

theorem request_with_body_trace (c : Client) (endpoint : String)
    (method : Method) {B T : Type} (ser : B → Json) (b : B)
    (send : RequestData → Except String Response)
    (decode : Json → Except String T) (hs : HeaderMap)
    (h : c.headers = Except.ok hs) :
    (c.request_with_body endpoint method ser b send decode).2 =
      [{ method := method, url := c.base_url ++ endpoint
       , headers := hs, body := some (ser b) }] := by
  unfold Client.request_with_body
  rw [h]
  dsimp only
  cases send { method := method, url := c.base_url ++ endpoint
             , headers := hs, body := some (ser b) } with
  | error e => rfl
  | ok resp =>
      dsimp only
      cases decode resp.body with
      | error e => rfl
      | ok v => rfl

/-- Claim C1 (code bug): `get_submission` does not send the query the spec
describes.  With the default config and no fields projection, the GET
request's query string is `base64_encoded=*&wait=false&fields=false` — the
positional format arguments are shifted by one — and a caller-supplied
fields value lands in the `base64_encoded` parameter, not in `fields`. -/
theorem get_submission_query_swapped :
    ((Client.new "http://judge0").get_submission "abc" none sendNone).2 =
      [{ method := Method.GET
       , url := "http://judge0/submissions/abc?base64_encoded=*&wait=false&fields=false"
       , headers := [("content-type", "application/json")]
       , body := none }] ∧
    getSubmissionEndpoint Config.default "abc" (some "token,status") =
      "/submissions/abc?base64_encoded=token,status&wait=false&fields=false" :=
  ⟨rfl, rfl⟩

/-- Claim C2 (counterexample): serializing a Submission with only
`source_code` and `language_id` set does *not* omit the other fields — the
unset optional field `stdin` is present as an explicit `null` — and
deserializing a JSON object populating only `token` does not yield a
Submission at all: it fails with a missing-field error. -/
theorem submission_roundtrip_claim_false :
    Json.lookup (Submission.toJson subMin) "stdin" = some Json.null ∧
    Submission.fromJson (Json.obj [("token", Json.str "t")]) =
      Except.error "missing field source_code" :=
  ⟨rfl, rfl⟩

/-- Claim C2 (amended): serializing a Submission in which only `source_code`
and `language_id` are set produces a JSON body carrying every field, the
unset optional ones as explicit `null` literals; deserializing a response
JSON that populates only `token` fails with a `missing field source_code`
deserialization error, because `source_code` and `language_id` are
mandatory. -/
theorem submission_minimal_serialization_and_token_only_decode :
    Submission.toJson subMin = Json.obj
      [ ("source_code", Json.str "print(1)")
      , ("language_id", Json.num 1)
      , ("compiler_options", Json.null)
      , ("command_line_arguments", Json.null)
      , ("stdin", Json.null)
      , ("expected_output", Json.null)
      , ("cpu_time_limit", Json.null)
      , ("cpu_extra_time", Json.null)
      , ("wall_time_limit", Json.null)
      , ("memory_limit", Json.null)
      , ("stack_limit", Json.null)
      , ("max_processes_and_or_threads", Json.null)
      , ("enable_per_process_and_thread_time_limit", Json.null)
      , ("enable_per_process_and_thread_memory_limit", Json.null)
      , ("max_file_size", Json.null)
      , ("redirect_stderr_to_stdout", Json.null)
      , ("enable_network", Json.null)
      , ("number_of_runs", Json.null)
      , ("additional_files", Json.null)
      , ("callback_url", Json.null)
      , ("stdout", Json.null)
      , ("stderr", Json.null)
      , ("compile_output", Json.null)
      , ("message", Json.null)
      , ("exit_code", Json.null)
      , ("exit_signal", Json.null)
      , ("status", Json.null)
      , ("created_at", Json.null)
      , ("finished_at", Json.null)
      , ("token", Json.null)
      , ("time", Json.null)
      , ("wall_time", Json.null)
      , ("memory", Json.null)
      ] ∧
    Submission.fromJson (Json.obj [("token", Json.str "t")]) =
      Except.error "missing field source_code" :=
  ⟨rfl, rfl⟩

/-- Claim C3 (code bug): `get_batch_submission` issues its GET against the
path `/submission/batch` (singular), not `/submissions/batch`; the rest of
the query — comma-joined tokens in input order, `base64_encoded` from the
config, `fields` defaulting to `*` — matches the claim. -/
theorem get_batch_submission_wrong_path :
    ((Client.new "http://judge0").get_batch_submission ["a", "b", "c"] none
        sendNone).2 =
      [{ method := Method.GET
       , url := "http://judge0/submission/batch?tokens=a,b,c&base64_encoded=false&fields=*"
       , headers := [("content-type", "application/json")]
       , body := none }] :=
  rfl

/-- Claim C4 (code bug): a configured token value containing a character
illegal for HTTP header values makes header construction fail with
`Error.HeaderName` carrying that *value* — the `header_value` closure maps
its failure to the wrong variant, and `Error.HeaderValue` is never
constructed.  A malformed header *name* does fail with `Error.HeaderName`
as the claim states. -/
theorem header_value_failure_reported_as_header_name :
    Client.headers
        { base_url := "u"
        , config := { Config.default with authentication_token := some "a\nb" } } =
      Except.error (Error.HeaderName "a\nb") ∧
    Client.headers
        { base_url := "u"
        , config := { Config.default with
                        authentication_header_name := "bad name"
                      , authentication_token := some "t" } } =
      Except.error (Error.HeaderName "bad name") :=
  ⟨rfl, rfl⟩

/-- Claim C5: when the transport answers with any HTTP status and a body the
operation's decoder accepts, the operation succeeds with the decoded value —
the status code is never inspected; in particular `create_submission`
returns a 422 JSON error body verbatim as its decoded `Value` result. -/
theorem response_decoded_ignoring_status (c : Client) (endpoint : String)
    (method : Method) (status : Nat) (body : Json) {T : Type}
    (decode : Json → Except String T) (v : T) (sub : Submission)
    (hs : HeaderMap) (h : c.headers = Except.ok hs)
    (hd : decode body = Except.ok v) :
    (c.request endpoint method
        (fun _ => Except.ok { status := status, body := body }) decode).1 =
      Except.ok v ∧
    (c.create_submission sub
        (fun _ => Except.ok { status := status, body := body })).1 =
      Except.ok body := by
  constructor
  · unfold Client.request
    rw [h]
    dsimp only
    rw [hd]
  · unfold Client.create_submission Client.request_with_body
    rw [h]
    dsimp only
    rfl

/-- Witness for C5: a mock transport answering 422 with the
`wall_time_limit` validation body; the call succeeds with that body. -/
theorem response_decoded_ignoring_status_witness :
    ((Client.new "u").request "/about" Method.GET
        (fun _ => Except.ok
          { status := 422
          , body := Json.obj [("wall_time_limit",
              Json.arr [Json.str "must be less than or equal to 150"])] })
        decodeValue).1 =
      Except.ok (Json.obj [("wall_time_limit",
        Json.arr [Json.str "must be less than or equal to 150"])]) ∧
    ((Client.new "u").create_submission subMin
        (fun _ => Except.ok
          { status := 422
          , body := Json.obj [("wall_time_limit",
              Json.arr [Json.str "must be less than or equal to 150"])] })).1 =
      Except.ok (Json.obj [("wall_time_limit",
        Json.arr [Json.str "must be less than or equal to 150"])]) :=
  response_decoded_ignoring_status (Client.new "u") "/about" Method.GET 422
    (Json.obj [("wall_time_limit",
      Json.arr [Json.str "must be less than or equal to 150"])])
    decodeValue
    (Json.obj [("wall_time_limit",
      Json.arr [Json.str "must be less than or equal to 150"])])
    subMin [("content-type", "application/json")] rfl rfl

/-- Claim C6: `create_submission` POSTs to `/submissions` and its query
string is exactly `base64_encoded=<b>&wait=<w>` with the literal lowercase
booleans, in that order, for every (base64_encoded, wait) pair. -/
theorem create_submission_query_params (c : Client) (sub : Submission)
    (send : RequestData → Except String Response) (hs : HeaderMap)
    (h : c.headers = Except.ok hs) :
    (c.create_submission sub send).2 =
      [{ method := Method.POST
       , url := c.base_url ++ ("/submissions?base64_encoded=" ++
           (if c.config.base64_encoded then "true" else "false") ++
           "&wait=" ++ (if c.config.wait then "true" else "false"))
       , headers := hs
       , body := some (Submission.toJson sub) }] := by
  unfold Client.create_submission
  rw [request_with_body_trace c (createSubmissionEndpoint c.config)
      Method.POST Submission.toJson sub send decodeValue hs h]
  rfl

/-- Witness for C6: the default config yields the query
`base64_encoded=false&wait=false`. -/
theorem create_submission_query_params_witness :
    ((Client.new "u").create_submission subMin sendNone).2 =
      [{ method := Method.POST
       , url := "u/submissions?base64_encoded=false&wait=false"
       , headers := [("content-type", "application/json")]
       , body := some (Submission.toJson subMin) }] :=
  create_submission_query_params (Client.new "u") subMin sendNone
    [("content-type", "application/json")] rfl

/-- Claim C7 (counterexample): a Config containing a malformed header name
does *not* always short-circuit: with the authentication header name set to
`bad name` but the authentication token absent, the `if let` guarding the
name is never entered, header construction succeeds, and the transport is
invoked — the send log is non-empty and no `Error.HeaderName` is raised. -/
theorem malformed_name_without_token_still_sends :
    Client.request
        { base_url := "u"
        , config := { Config.default with
                        authentication_header_name := "bad name" } }
        "/languages" Method.GET
        (fun _ => Except.ok { status := 200, body := Json.arr [] })
        decodeValue =
      (Except.ok (Json.arr []),
        [{ method := Method.GET, url := "u/languages"
         , headers := [("content-type", "application/json")]
         , body := none }]) :=
  rfl

/-- Claim C7 (amended): for every operation, with or without a body — if
the Config's authentication header name is malformed *and* the
authentication token is present, the operation returns `Error.HeaderName`
with that name and the transport is handed no request at all; likewise, if
the authentication token is absent while the authorization header name is
malformed and the authorization token is present, the operation returns
`Error.HeaderName` with the authorization name without invoking the
transport.  (A malformed name whose guarding token is absent is never
parsed, so the request proceeds.) -/
theorem invalid_name_under_present_token_short_circuits (c : Client)
    (t : String) (endpoint : String) (method : Method)
    (send : RequestData → Except String Response)
    {T B : Type} (decode : Json → Except String T) (ser : B → Json) (b : B) :
    (validHeaderName c.config.authentication_header_name = false →
      c.config.authentication_token = some t →
      c.request endpoint method send decode =
        (Except.error (Error.HeaderName c.config.authentication_header_name),
          []) ∧
      c.request_with_body endpoint method ser b send decode =
        (Except.error (Error.HeaderName c.config.authentication_header_name),
          [])) ∧
    (c.config.authentication_token = none →
      validHeaderName c.config.authorization_header_name = false →
      c.config.authorization_token = some t →
      c.request endpoint method send decode =
        (Except.error (Error.HeaderName c.config.authorization_header_name),
          []) ∧
      c.request_with_body endpoint method ser b send decode =
        (Except.error (Error.HeaderName c.config.authorization_header_name),
          [])) := by
  constructor
  · intro hname htok
    have hh : c.headers =
        Except.error (Error.HeaderName c.config.authentication_header_name) := by
      unfold Client.headers
      rw [hv_appjson]
      dsimp only
      rw [htok, addAuthHeader_bad_name _ t hname]
    constructor
    · unfold Client.request
      rw [hh]
    · unfold Client.request_with_body
      rw [hh]
  · intro hnone hname htok
    have hh : c.headers =
        Except.error (Error.HeaderName c.config.authorization_header_name) := by
      unfold Client.headers
      rw [hv_appjson]
      dsimp only
      rw [hnone, addAuthHeader_none]
      dsimp only
      rw [htok, addAuthHeader_bad_name _ t hname]
    constructor
    · unfold Client.request
      rw [hh]
    · unfold Client.request_with_body
      rw [hh]

/-- Witness for the amended C7: a malformed authentication name with its
token present, and a malformed authorization name with its token present
(authentication token absent), each short-circuit both request forms with
`Error.HeaderName` and an empty send log. -/
theorem invalid_name_under_present_token_short_circuits_witness :
    (Client.request cBadAuthName "/languages" Method.GET sendNone
        decodeValue =
      (Except.error (Error.HeaderName "bad name"), []) ∧
     Client.request_with_body cBadAuthName "/languages" Method.GET
        Submission.toJson subMin sendNone decodeValue =
      (Except.error (Error.HeaderName "bad name"), [])) ∧
    (Client.request cBadAuthzName "/languages" Method.GET sendNone
        decodeValue =
      (Except.error (Error.HeaderName "bad user"), []) ∧
     Client.request_with_body cBadAuthzName "/languages" Method.GET
        Submission.toJson subMin sendNone decodeValue =
      (Except.error (Error.HeaderName "bad user"), [])) :=
  ⟨(invalid_name_under_present_token_short_circuits cBadAuthName "t"
      "/languages" Method.GET sendNone decodeValue Submission.toJson
      subMin).1 (by decide) rfl,
   (invalid_name_under_present_token_short_circuits cBadAuthzName "t"
      "/languages" Method.GET sendNone decodeValue Submission.toJson
      subMin).2 rfl (by decide) rfl⟩

theorem lookupKey_base_ne (k : String) (hk : k ≠ "content-type") :
    lookupKey [("content-type", "application/json")] k = none := by
  rw [lookupKey, List.find?_cons_of_neg _ (by simpa using Ne.symm hk)]
  rfl

/-- Claim C8 (counterexample): with `authenticationHeaderName` configured to
`content-type` and a token present, the built header set does *not* contain
`content-type: application/json` — the token value overwrites it. -/
theorem headers_content_type_overwritten :
    Client.headers
        { base_url := "u"
        , config := { Config.default with
                        authentication_header_name := "content-type"
                      , authentication_token := some "x" } } =
      Except.ok [("content-type", "x")] ∧
    findHeader [("content-type", "x")] "content-type" = some "x" ∧
    findHeader [("content-type", "x")] "content-type" ≠
      some "application/json" :=
  ⟨rfl, rfl, by decide⟩

/-- Claim C8 (amended): for every Config whose two auth header names are,
case-insensitively, distinct from `content-type` and from each other, a
successfully built header set contains `content-type: application/json`; it
contains a header named by `authenticationHeaderName` exactly when the
authentication token is present (with that token as value), and likewise
for the authorization pair; an absent token's header is omitted entirely. -/
theorem headers_contents (c : Client) (hs : HeaderMap)
    (h : c.headers = Except.ok hs)
    (hne1 : lowerAscii c.config.authentication_header_name ≠ "content-type")
    (hne2 : lowerAscii c.config.authorization_header_name ≠ "content-type")
    (hne3 : lowerAscii c.config.authentication_header_name ≠
      lowerAscii c.config.authorization_header_name) :
    findHeader hs "content-type" = some "application/json" ∧
    findHeader hs c.config.authentication_header_name =
      c.config.authentication_token ∧
    findHeader hs c.config.authorization_header_name =
      c.config.authorization_token := by
  obtain ⟨hs₁, h1, h2⟩ := headers_ok_split h
  have hct : lowerAscii "content-type" = "content-type" := rfl
  cases hat : c.config.authentication_token with
  | none =>
      rw [hat, addAuthHeader_none, Except.ok.injEq] at h1
      subst h1
      cases haz : c.config.authorization_token with
      | none =>
          rw [haz, addAuthHeader_none, Except.ok.injEq] at h2
          subst h2
          refine ⟨rfl, ?_, ?_⟩
          · rw [findHeader_eq_lookupKey, lookupKey_base_ne _ hne1]
          · rw [findHeader_eq_lookupKey, lookupKey_base_ne _ hne2]
      | some t2 =>
          rw [haz] at h2
          have e2 := addAuthHeader_some h2
          subst e2
          refine ⟨?_, ?_, ?_⟩
          · rw [findHeader_eq_lookupKey, hct,
              lookupKey_insert_ne _ _ (Ne.symm hne2)]
            rfl
          · rw [findHeader_eq_lookupKey,
              lookupKey_insert_ne _ _ hne3, lookupKey_base_ne _ hne1]
          · rw [findHeader_eq_lookupKey, lookupKey_insert_self]
  | some t1 =>
      rw [hat] at h1
      have e1 := addAuthHeader_some h1
      subst e1
      cases haz : c.config.authorization_token with
      | none =>
          rw [haz, addAuthHeader_none, Except.ok.injEq] at h2
          subst h2
          refine ⟨?_, ?_, ?_⟩
          · rw [findHeader_eq_lookupKey, hct,
              lookupKey_insert_ne _ _ (Ne.symm hne1)]
            rfl
          · rw [findHeader_eq_lookupKey, lookupKey_insert_self]
          · rw [findHeader_eq_lookupKey,
              lookupKey_insert_ne _ _ (Ne.symm hne3),
              lookupKey_base_ne _ hne2]
      | some t2 =>
          rw [haz] at h2
          have e2 := addAuthHeader_some h2
          subst e2
          refine ⟨?_, ?_, ?_⟩
          · rw [findHeader_eq_lookupKey, hct,
              lookupKey_insert_ne _ _ (Ne.symm hne2),
              lookupKey_insert_ne _ _ (Ne.symm hne1)]
            rfl
          · rw [findHeader_eq_lookupKey,
              lookupKey_insert_ne _ _ hne3, lookupKey_insert_self]
          · rw [findHeader_eq_lookupKey, lookupKey_insert_self]

/-- Witness for the amended C8: default header names, both tokens set. -/
theorem headers_contents_witness :
    findHeader [("content-type", "application/json"), ("x-auth-token", "a"),
        ("x-auth-user", "b")] "content-type" = some "application/json" ∧
    findHeader [("content-type", "application/json"), ("x-auth-token", "a"),
        ("x-auth-user", "b")] "X-Auth-Token" = some "a" ∧
    findHeader [("content-type", "application/json"), ("x-auth-token", "a"),
        ("x-auth-user", "b")] "X-Auth-User" = some "b" :=
  headers_contents
    { base_url := "u"
    , config := { Config.default with
                    authentication_token := some "a"
                  , authorization_token := some "b" } }
    [("content-type", "application/json"), ("x-auth-token", "a"),
      ("x-auth-user", "b")]
    rfl (by decide) (by decide) (by decide)

/-- Claim C9: the default Config is exactly
(`X-Auth-Token`, no token, `X-Auth-User`, no token, base64_encoded=false,
wait=false); `Client::new` carries exactly that Config together with the
given base URL, and `configure` replaces the whole Config, keeping the base
URL. -/
theorem default_config_and_new_client (u : String) (cfg : Config) :
    Config.default =
      { authentication_header_name := "X-Auth-Token"
      , authentication_token := none
      , authorization_header_name := "X-Auth-User"
      , authorization_token := none
      , base64_encoded := false
      , wait := false } ∧
    (Client.new u).config = Config.default ∧
    (Client.new u).base_url = u ∧
    ((Client.new u).configure cfg).config = cfg ∧
    ((Client.new u).configure cfg).base_url = u :=
  ⟨rfl, rfl, rfl, rfl, rfl⟩

/-- Witness for C9 at a concrete base URL and Config. -/
theorem default_config_and_new_client_witness :
    Config.default =
      { authentication_header_name := "X-Auth-Token"
      , authentication_token := none
      , authorization_header_name := "X-Auth-User"
      , authorization_token := none
      , base64_encoded := false
      , wait := false } ∧
    (Client.new "http://localhost:2358").config = Config.default ∧
    (Client.new "http://localhost:2358").base_url = "http://localhost:2358" ∧
    ((Client.new "http://localhost:2358").configure
        { Config.default with wait := true }).config =
      { Config.default with wait := true } ∧
    ((Client.new "http://localhost:2358").configure
        { Config.default with wait := true }).base_url =
      "http://localhost:2358" :=
  default_config_and_new_client "http://localhost:2358"
    { Config.default with wait := true }

/-- Claim C10: when both configured header names are the same string and
both tokens are present, the built header set has exactly one entry under
that name and its value is the authorization token — the second insert
overwrites the first, silently dropping the authentication token. -/
theorem duplicate_header_name_last_insert_wins (c : Client)
    (t1 t2 : String) (hs : HeaderMap)
    (hname : c.config.authorization_header_name =
      c.config.authentication_header_name)
    (h1 : c.config.authentication_token = some t1)
    (h2 : c.config.authorization_token = some t2)
    (h : c.headers = Except.ok hs) :
    (List.filter
        (fun p => p.1 = lowerAscii c.config.authentication_header_name)
        hs).length = 1 ∧
    findHeader hs c.config.authentication_header_name = some t2 := by
  obtain ⟨hs₁, ha1, ha2⟩ := headers_ok_split h
  rw [h1] at ha1
  rw [h2, hname] at ha2
  have e1 := addAuthHeader_some ha1
  subst e1
  have e2 := addAuthHeader_some ha2
  subst e2
  constructor
  · by_cases hctn : lowerAscii c.config.authentication_header_name =
        "content-type"
    · rw [hctn]
      rfl
    · have hc : ¬ ("content-type" =
          lowerAscii c.config.authentication_header_name) :=
        fun hh => hctn hh.symm
      have s1 : HeaderMap.insert [("content-type", "application/json")]
          (lowerAscii c.config.authentication_header_name) t1 =
          [("content-type", "application/json"),
            (lowerAscii c.config.authentication_header_name, t1)] := by
        unfold HeaderMap.insert
        rw [if_neg (by simp [hc])]
        rfl
      have s2 : HeaderMap.insert
          [("content-type", "application/json"),
            (lowerAscii c.config.authentication_header_name, t1)]
          (lowerAscii c.config.authentication_header_name) t2 =
          [("content-type", "application/json"),
            (lowerAscii c.config.authentication_header_name, t2)] := by
        unfold HeaderMap.insert
        rw [if_pos (by simp)]
        simp [hc]
      rw [s1, s2]
      rw [List.filter_cons, if_neg (by simpa using hc)]
      rw [List.filter_cons, if_pos (by simp)]
      rfl
  · rw [findHeader_eq_lookupKey, lookupKey_insert_self]

/-- Witness for C10: name `X-Both` for both, tokens `a` then `b`; the set
keeps a single `x-both` header valued `b`. -/
theorem duplicate_header_name_last_insert_wins_witness :
    (List.filter (fun p => p.1 = "x-both")
        [("content-type", "application/json"), ("x-both", "b")]).length = 1 ∧
    findHeader [("content-type", "application/json"), ("x-both", "b")]
        "X-Both" = some "b" :=
  duplicate_header_name_last_insert_wins
    { base_url := "u"
    , config := { Config.default with
                    authentication_header_name := "X-Both"
                  , authorization_header_name := "X-Both"
                  , authentication_token := some "a"
                  , authorization_token := some "b" } }
    "a" "b" [("content-type", "application/json"), ("x-both", "b")]
    rfl rfl rfl rfl

end Judge0
